import Mathlib

/-!
Verification of the streaming render engine of SQLpage (`src/render.rs`).

The Rust code is shallowly embedded: mutable state becomes explicit state
passing, `anyhow::Result` / `RenderError` become `Except`, and the byte sink
becomes an accumulated `String`.  External collaborators (the handlebars
template engine and the serde_json parser) are modelled by function values:
a `Template` carries its abstract render function
(block stack and root context in, written output and resulting block stack
out), and JSON-string parsing (`serde_json::from_str(..).ok()`) is an
explicit `fromStr : String → Option Value` parameter.

The mutually recursive pair `handle_row` / `render_dynamic` terminates in
Rust because of the recursion-depth guard; here the recursion is made
structural with an explicit fuel parameter.  Running out of fuel is reported
with the distinguished error `Err.OutOfFuel`, which the Rust code never
produces; universally quantified theorems range over all fuel values and
concrete executions use visibly sufficient fuel.

Dispatcher-level operations additionally record a ghost trace of renderer
lifecycle events (`events` field).  The trace is write-only instrumentation
used to state ordering properties; it does not influence any computation.
-/

namespace SQLpage

/-- serde_json::Value, with numbers collapsed to `Int` (no claim depends on
floating point or integer width). Objects are ordered field lists. -/
inductive Value where
  | null
  | bool (b : Bool)
  | num (n : Int)
  | str (s : String)
  | arr (xs : List Value)
  | obj (fields : List (String × Value))

/-- Value::as_object -/
def Value.as_object : Value → Option (List (String × Value))
  | .obj fields => some fields
  | _ => none

/-- Value::as_str -/
def Value.as_str : Value → Option String
  | .str s => some s
  | _ => none

/-- Value::get on an object key (None for non-objects), as used by
`data.get("properties")`. -/
def Value.get (v : Value) (key : String) : Option Value :=
  match v with
  | .obj fields => fields.lookup key
  | _ => none

/-- handlebars::RenderError, abstracted to its message. -/
structure RenderError where
  desc : String
deriving DecidableEq

/-- handlebars::BlockContext: base value plus local variables
(base_value is an `Option`, set by `set_base_value`). -/
structure BlockContext where
  base_value : Option Value := none
  locals : List (String × Value) := []

/-- A compiled handlebars (sub-)template: its name together with its render
behaviour, abstracted as a function from the block-context stack (head =
innermost) and the root context value to the written output and the
resulting block stack. A failing render still reports the (possibly
incomplete) output it wrote before failing. -/
structure Template where
  name : Option String := none
  render : List BlockContext → Value → String × Except RenderError (List BlockContext)

/-- crate::templates::SplitTemplate -/
structure SplitTemplate where
  before_list : Template
  list_content : Template
  after_list : Template

/-- SplitTemplateRenderer (the `registry : &Handlebars` field lives inside
the modelled render functions). -/
structure SplitTemplateRenderer where
  split_template : SplitTemplate
  block_context : Option BlockContext
  row_index : Nat

namespace SplitTemplateRenderer

/-- SplitTemplateRenderer::new -/
def new (split_template : SplitTemplate) : SplitTemplateRenderer :=
  { split_template, block_context := none, row_index := 0 }

/-- SplitTemplateRenderer::name -/
def name (r : SplitTemplateRenderer) : String :=
  (r.split_template.list_content.name).getD ""

/-- The fresh `handlebars::RenderContext::new(None)`: a stack holding one
default block. -/
def freshRenderContext : List BlockContext := [{}]

/-- SplitTemplateRenderer::render_start: render `before_list` with `data` as
root, then stash the resulting top block (base value set to `data`) and
reset `row_index`. Returns (new state, output written, result). -/
def render_start (r : SplitTemplateRenderer) (data : Value) :
    SplitTemplateRenderer × String × Except RenderError Unit :=
  match r.split_template.before_list.render freshRenderContext data with
  | (out, .error e) => (r, out, .error e)
  | (out, .ok blocks) =>
      let blk := blocks.head?.getD {}
      let blk := { blk with base_value := some data }
      ({ r with block_context := some blk, row_index := 0 }, out, .ok ())

/-- The inner block pushed for one item: base value `data` and local
variable `row_index`. -/
def item_block_context (data : Value) (row_index : Nat) : BlockContext :=
  { base_value := some data, locals := [("row_index", Value.num row_index)] }

/-- SplitTemplateRenderer::render_item: no-op without a stashed block;
otherwise push the stashed outer block and a fresh inner block, render
`list_content` with a null root context, pop the inner block, re-stash the
outer block and bump `row_index`. On render failure the taken block context
is lost. -/
def render_item (r : SplitTemplateRenderer) (data : Value) :
    SplitTemplateRenderer × String × Except RenderError Unit :=
  match r.block_context with
  | none => (r, "", .ok ())
  | some block_context =>
      let stack := item_block_context data r.row_index :: block_context :: freshRenderContext
      match r.split_template.list_content.render stack Value.null with
      | (out, .error e) => ({ r with block_context := none }, out, .error e)
      | (out, .ok blocks) =>
          ({ r with block_context := (blocks.drop 1).head?,
                    row_index := r.row_index + 1 }, out, .ok ())

/-- SplitTemplateRenderer::render_end: no-op without a stashed block;
otherwise push the stashed outer block and render `after_list`. The block
context is consumed in every case. -/
def render_end (r : SplitTemplateRenderer) :
    SplitTemplateRenderer × String × Except RenderError Unit :=
  match r.block_context with
  | none => (r, "", .ok ())
  | some block_context =>
      match r.split_template.after_list.render
          (block_context :: freshRenderContext) Value.null with
      | (out, .error e) => ({ r with block_context := none }, out, .error e)
      | (out, .ok _) => ({ r with block_context := none }, out, .ok ())

end SplitTemplateRenderer

/-- The error kinds surfaced through `anyhow::Result` by the dispatcher.
`OutOfFuel` is the fuel artifact, never produced by the Rust code. -/
inductive Err where
  | Render (e : RenderError)
  | UnknownComponent (component : String)
  | BadDynamic
  | RecursionLimit
  | NoComponentSelected
  | OutOfFuel
deriving DecidableEq

/-- Display form of an error, as handed to `handle_error` by
`handle_result_and_log` (mirrors the anyhow context / ensure messages,
rendered without quote characters). -/
def Err.describe : Err → String
  | .Render e => e.desc
  | .UnknownComponent c => "The component " ++ c ++ " was not found."
  | .BadDynamic =>
      "The dynamic component requires a parameter called parameters that is a json "
  | .RecursionLimit => "Maximum recursion depth exceeded in the dynamic component."
  | .NoComponentSelected => "Tried to render data but no component is selected"
  | .OutOfFuel => "out of fuel"

/-- An external error event (`impl std::error::Error`): its Display string
and the chain of causes. -/
structure ErrObj where
  description : String
  backtrace : List String

/-- View of an internal error as an error event, for the error pipeline
re-entered from `close`. -/
def ErrObj.ofErr (e : Err) : ErrObj :=
  { description := e.describe, backtrace := [] }

/-- Which renderer an instrumented lifecycle event belongs to, what it did,
and the bytes it wrote. -/
inductive EventKind where
  | start
  | item
  | close
deriving DecidableEq, Repr

/-- Ghost trace entry: one renderer lifecycle call made by the dispatcher,
with the bytes that call wrote. -/
inductive Event where
  | comp (name : String) (k : EventKind) (out : String)
  | shell (k : EventKind) (out : String)
deriving DecidableEq

/-- RenderContext (per HTTP response). `writer` is the byte sink, `events`
the ghost lifecycle trace. The registry replaces `app_state`. -/
structure RenderContext where
  registry : List (String × SplitTemplate)
  writer : String
  current_component : Option SplitTemplateRenderer
  shell_renderer : SplitTemplateRenderer
  recursion_depth : Nat
  current_statement : Nat
  events : List Event

def DEFAULT_COMPONENT : String := "default"
def MAX_RECURSION_DEPTH : Nat := 256

namespace RenderContext

/-- RenderContext::create_renderer: look the component up in the registry. -/
def create_renderer (registry : List (String × SplitTemplate)) (component : String) :
    Except Err SplitTemplateRenderer :=
  match registry.lookup component with
  | none => .error (.UnknownComponent component)
  | some t => .ok (SplitTemplateRenderer.new t)

/-- RenderContext::new (the Rust code panics if `shell` is missing, hence
the `Option`). -/
def new (registry : List (String × SplitTemplate)) : Option RenderContext :=
  match create_renderer registry "shell" with
  | .error _ => none
  | .ok shell_renderer =>
      some { registry, writer := "", current_component := none,
             shell_renderer, recursion_depth := 0, current_statement := 1,
             events := [] }

/-- Sequencing of two fallible state transformers, as Rust `?` chains:
the state reached so far survives an early error return. -/
def andThen (r : RenderContext × Except Err Unit)
    (f : RenderContext → RenderContext × Except Err Unit) :
    RenderContext × Except Err Unit :=
  match r with
  | (st, .error e) => (st, .error e)
  | (st, .ok _) => f st

/-- `self.shell_renderer.render_start(&mut self.writer, data)` with trace
instrumentation. -/
def shell_render_start (st : RenderContext) (data : Value) :
    RenderContext × Except Err Unit :=
  let (r, out, res) := st.shell_renderer.render_start data
  ({ st with shell_renderer := r, writer := st.writer ++ out,
             events := st.events ++ [.shell .start out] },
   res.mapError Err.Render)

/-- `self.shell_renderer.render_item(&mut self.writer, data)`. -/
def shell_render_item (st : RenderContext) (data : Value) :
    RenderContext × Except Err Unit :=
  let (r, out, res) := st.shell_renderer.render_item data
  ({ st with shell_renderer := r, writer := st.writer ++ out,
             events := st.events ++ [.shell .item out] },
   res.mapError Err.Render)

/-- `self.shell_renderer.render_end(&mut self.writer)`. -/
def shell_render_end (st : RenderContext) :
    RenderContext × Except Err Unit :=
  let (r, out, res) := st.shell_renderer.render_end
  ({ st with shell_renderer := r, writer := st.writer ++ out,
             events := st.events ++ [.shell .close out] },
   res.mapError Err.Render)

/-- RenderContext::close_component: `render_end` the current component if
any (it stays current, in its ended state). -/
def close_component (st : RenderContext) : RenderContext × Except Err Unit :=
  match st.current_component with
  | some component =>
      let (c, out, res) := component.render_end
      ({ st with current_component := some c, writer := st.writer ++ out,
                 events := st.events ++ [.comp component.name .close out] },
       res.mapError Err.Render)
  | none => (st, .ok ())

/-- RenderContext::open_component_with_data: close the current component,
instantiate the named one and `render_start` it with `data`. -/
def open_component_with_data (st : RenderContext) (component : String) (data : Value) :
    RenderContext × Except Err Unit :=
  andThen (close_component st) fun st =>
    match create_renderer st.registry component with
    | .error e => (st, .error e)
    | .ok r =>
        let (r2, out, res) := r.render_start data
        ({ st with current_component := some r2, writer := st.writer ++ out,
                   events := st.events ++ [.comp r.name .start out] },
         res.mapError Err.Render)

/-- RenderContext::open_component -/
def open_component (st : RenderContext) (component : String) :
    RenderContext × Except Err Unit :=
  open_component_with_data st component Value.null

/-- RenderContext::render_current_template_with_data: `render_item` on the
current component (error if none), then a null `render_item` on the shell. -/
def render_current_template_with_data (st : RenderContext) (data : Value) :
    RenderContext × Except Err Unit :=
  match st.current_component with
  | none => (st, .error .NoComponentSelected)
  | some rdr =>
      let (r, out, res) := rdr.render_item data
      let st1 := { st with current_component := some r, writer := st.writer ++ out,
                           events := st.events ++ [.comp rdr.name .item out] }
      andThen (st1, res.mapError Err.Render) fun st => shell_render_item st Value.null

/-- RenderContext::handle_error: close the open component (or start the
shell), render one item of the `error` component with the error data, close
it, and put the previously open component back. An early error return skips
the restoration, as in the source. -/
def handle_error (st : RenderContext) (error : ErrObj) :
    RenderContext × Except Err Unit :=
  andThen
    (if st.current_component.isSome then close_component st
     else shell_render_start st Value.null) fun st =>
  let saved_component := st.current_component
  let st := { st with current_component := none }
  andThen (open_component st "error") fun st =>
  andThen
    (render_current_template_with_data st
      (Value.obj
        [("query_number", Value.num st.current_statement),
         ("description", Value.str error.description),
         ("backtrace", Value.arr (error.backtrace.map Value.str))])) fun st =>
  andThen (close_component st) fun st =>
  ({ st with current_component := saved_component }, .ok ())

/-- RenderContext::finish_query -/
def finish_query (st : RenderContext) : RenderContext × Except Err Unit :=
  ({ st with current_statement := st.current_statement + 1 }, .ok ())

/-- RenderContext::handle_result_and_log: feed an internal error back
through `handle_error`, discarding (logging) any secondary failure. -/
def handle_result_and_log (st : RenderContext) (res : Except Err Unit) : RenderContext :=
  match res with
  | .ok _ => st
  | .error e => (handle_error st (ErrObj.ofErr e)).1

/-- RenderContext::close: `render_end` the taken current component then the
shell, routing failures through `handle_result_and_log`. -/
def close (st0 : RenderContext) : RenderContext :=
  let st1 : RenderContext :=
    match st0.current_component with
    | some component =>
        let st := { st0 with current_component := none }
        let (_, out, res) := component.render_end
        let st := { st with writer := st.writer ++ out,
                            events := st.events ++ [Event.comp component.name .close out] }
        handle_result_and_log st (res.mapError Err.Render)
    | none => st0
  let (r, out, res) := st1.shell_renderer.render_end
  let st2 : RenderContext :=
    { st1 with shell_renderer := r, writer := st1.writer ++ out,
               events := st1.events ++ [Event.shell .close out] }
  handle_result_and_log st2 (res.mapError Err.Render)

/-- The `properties` extraction inside RenderContext::render_dynamic:
a JSON string parsing to an array or an object, or a direct object;
anything else (a direct array included) is refused. -/
def dynamic_properties (fromStr : String → Option Value) (data : Value) :
    Option (List Value) :=
  (data.get "properties").bind fun props =>
    match props with
    | .str s =>
        match fromStr s with
        | some (.arr values) => some values
        | some (.obj fields) => some [Value.obj fields]
        | _ => none
    | .obj fields => some [Value.obj fields]
    | _ => none

/-- The `for p in properties` loop of render_dynamic: bump the recursion
depth around each recursive `handle_row` call (`hr`, the dispatcher at one
fuel less), undo it, then propagate any error. -/
def dyn_loop (hr : RenderContext → Value → RenderContext × Except Err Unit) :
    RenderContext → List Value → RenderContext × Except Err Unit
  | st, [] => (st, .ok ())
  | st, p :: rest =>
      let st1 := { st with recursion_depth := st.recursion_depth + 1 }
      let (st2, res) := hr st1 p
      let st3 := { st2 with recursion_depth := st2.recursion_depth - 1 }
      match res with
      | .error e => (st3, .error e)
      | .ok _ => dyn_loop hr st3 rest

/-- RenderContext::render_dynamic: guard the recursion depth, extract the
`properties` values and feed each back through the dispatcher. -/
def render_dynamic (fromStr : String → Option Value)
    (hr : RenderContext → Value → RenderContext × Except Err Unit)
    (st : RenderContext) (data : Value) : RenderContext × Except Err Unit :=
  if st.recursion_depth > MAX_RECURSION_DEPTH then (st, .error .RecursionLimit)
  else
    match dynamic_properties fromStr data with
    | none => (st, .error .BadDynamic)
    | some properties => dyn_loop hr st properties

/-- RenderContext::handle_row: the central state machine, dispatching on
(current component, `component` column). `fromStr` is the external JSON
parser; the fuel only bounds dynamic re-entry. -/
def handle_row (fromStr : String → Option Value) :
    Nat → RenderContext → Value → RenderContext × Except Err Unit
  | 0, st, _ => (st, .error .OutOfFuel)
  | fuel + 1, st, data =>
      let new_component :=
        (data.as_object.bind fun o => o.lookup "component").bind Value.as_str
      match st.current_component.map SplitTemplateRenderer.name, new_component with
      | none, some "head" | none, none =>
          andThen (shell_render_start st data) fun st =>
            open_component_with_data st DEFAULT_COMPONENT data
      | none, new_component =>
          andThen (shell_render_start st Value.null) fun st =>
            open_component_with_data st (new_component.getD DEFAULT_COMPONENT) data
      | some _, some "dynamic" =>
          render_dynamic fromStr (handle_row fromStr fuel) st data
      | some _, some new_component =>
          open_component_with_data st new_component data
      | some _, _ =>
          render_current_template_with_data st data

end RenderContext

/-- One event of the consumed row-or-error stream. -/
inductive QueryEvent where
  | row (v : Value)
  | error (e : ErrObj)
  | finishQ

/-- One dispatcher step for one stream event. -/
def RenderContext.step (fromStr : String → Option Value) (fuel : Nat)
    (st : RenderContext) : QueryEvent → RenderContext × Except Err Unit
  | .row v => RenderContext.handle_row fromStr fuel st v
  | .error e => RenderContext.handle_error st e
  | .finishQ => RenderContext.finish_query st

/-- Drive the dispatcher over a stream of events, carrying the state across
failures (as the caller does after logging) and reporting whether every
step succeeded. -/
def RenderContext.run_events (fromStr : String → Option Value) (fuel : Nat) :
    RenderContext → List QueryEvent → RenderContext × Bool
  | st, [] => (st, true)
  | st, ev :: evs =>
      match RenderContext.step fromStr fuel st ev with
      | (st, .ok _) => RenderContext.run_events fromStr fuel st evs
      | (st, .error _) => ((RenderContext.run_events fromStr fuel st evs).1, false)

/-! Concrete template fixtures for scenario runs: constant-output templates
(the output of each zone is a fixed marker string) plus an error template
that echoes the `description` field of its item data. -/

/-- A template that writes a fixed string and leaves the block stack
unchanged. -/
def constTemplate (nm out : String) : Template :=
  { name := some nm, render := fun blocks _ => (out, .ok blocks) }

/-- A split template with constant pre-list / per-item / post-list output. -/
def constSplit (nm pre item post : String) : SplitTemplate :=
  { before_list := constTemplate nm pre,
    list_content := constTemplate nm item,
    after_list := constTemplate nm post }

def shellST : SplitTemplate := constSplit "shell" "S[" "" "]S"
def aST : SplitTemplate := constSplit "A" "A<" "(i)" ">A"
def bST : SplitTemplate := constSplit "B" "B<" "[i]" ">B"
def defaultST : SplitTemplate := constSplit "default" "D<" "(d)" ">D"

/-- The error component: its item zone echoes the `description` field of
the item data between markers. -/
def errST : SplitTemplate :=
  { before_list := constTemplate "error" "",
    list_content :=
      { name := some "error",
        render := fun blocks _ =>
          (match blocks.head? with
           | some blk =>
               match blk.base_value with
               | some v =>
                   match v.get "description" with
                   | some (.str s) => "E<" ++ s ++ ">E"
                   | _ => "E<>E"
               | none => "E<>E"
           | none => "E<>E", .ok blocks) },
    after_list := constTemplate "error" "" }

def registryX : List (String × SplitTemplate) :=
  [("shell", shellST), ("error", errST), ("default", defaultST),
   ("A", aST), ("B", bST)]

/-- A JSON parser stub for runs that never parse strings. -/
def fs0 : String → Option Value := fun _ => none

/-- The render context `new` produces on `registryX`. -/
def st0X : RenderContext :=
  { registry := registryX, writer := "", current_component := none,
    shell_renderer := SplitTemplateRenderer.new shellST,
    recursion_depth := 0, current_statement := 1, events := [] }

/-- A row selecting component A. -/
def cA : Value := Value.obj [("component", Value.str "A")]

/-- A row selecting component B. -/
def cB : Value := Value.obj [("component", Value.str "B")]

/-- A plain data row without a `component` column. -/
def itemRow : Value := Value.obj [("x", Value.num 1)]

def eBoom : ErrObj := { description := "boom", backtrace := [] }

/-- Project the ghost trace onto component-renderer lifecycle events. -/
def comp_lifecycle (evs : List Event) : List (String × EventKind) :=
  evs.filterMap fun e =>
    match e with
    | .comp n k _ => some (n, k)
    | .shell _ _ => none

/-- The self-nesting dynamic row: `dynNest (n+1)` is a dynamic row whose
`properties` object is `dynNest n`; `dynNest 0` is a plain data row. -/
def dynNest : Nat → Value
  | 0 => Value.obj [("x", Value.num 1)]
  | n + 1 => Value.obj [("component", Value.str "dynamic"), ("properties", dynNest n)]

/-- A context with a component open (an A renderer), as required for the
dynamic branch of handle_row. -/
def stOpenA : RenderContext :=
  { st0X with current_component := some (SplitTemplateRenderer.new aST) }

/-- A split template whose per-item zone always fails after writing some
output, for exercising the render_item failure path. -/
def failST : SplitTemplate :=
  { before_list := constTemplate "F" "F<",
    list_content :=
      { name := some "F", render := fun _ _ => ("P", .error { desc := "boom" }) },
    after_list := constTemplate "F" ">F" }

/-- An F renderer in the Started state. -/
def rFstarted : SplitTemplateRenderer :=
  ((SplitTemplateRenderer.new failST).render_start Value.null).1

namespace SplitTemplateRenderer

/-- Unfolding equation for render_start. -/
theorem render_start_eq (r : SplitTemplateRenderer) (data : Value) :
    r.render_start data =
      match r.split_template.before_list.render freshRenderContext data with
      | (out, .error e) => (r, out, .error e)
      | (out, .ok blocks) =>
          ({ r with
              block_context :=
                some { (blocks.head?.getD {}) with base_value := some data },
              row_index := 0 }, out, .ok ()) := by
  unfold render_start
  rfl

/-- Unfolding equation for render_item on a Started renderer. -/
theorem render_item_of_some {r : SplitTemplateRenderer} {bc : BlockContext}
    (data : Value) (hb : r.block_context = some bc) :
    r.render_item data =
      match r.split_template.list_content.render
          (item_block_context data r.row_index :: bc :: freshRenderContext)
          Value.null with
      | (out, .error e) => ({ r with block_context := none }, out, .error e)
      | (out, .ok blocks) =>
          ({ r with block_context := (blocks.drop 1).head?,
                    row_index := r.row_index + 1 }, out, .ok ()) := by
  unfold render_item
  rw [hb]

/-- Unfolding equation for render_end on a Started renderer. -/
theorem render_end_of_some {r : SplitTemplateRenderer} {bc : BlockContext}
    (hb : r.block_context = some bc) :
    r.render_end =
      match r.split_template.after_list.render (bc :: freshRenderContext) Value.null with
      | (out, .error e) => ({ r with block_context := none }, out, .error e)
      | (out, .ok _) => ({ r with block_context := none }, out, .ok ()) := by
  unfold render_end
  rw [hb]

/-- A renderer without a stashed block context ignores render_item. -/
theorem render_item_of_none {r : SplitTemplateRenderer} (data : Value)
    (h : r.block_context = none) : r.render_item data = (r, "", .ok ()) := by
  unfold render_item
  rw [h]

/-- A renderer without a stashed block context ignores render_end. -/
theorem render_end_of_none {r : SplitTemplateRenderer}
    (h : r.block_context = none) : r.render_end = (r, "", .ok ()) := by
  unfold render_end
  rw [h]

/-- render_end always leaves the renderer without a block context. -/
theorem render_end_block_context (r : SplitTemplateRenderer) :
    (r.render_end.1).block_context = none := by
  cases hb : r.block_context with
  | none => rw [render_end_of_none hb, hb]
  | some bc =>
      rw [render_end_of_some hb]
      cases hres : r.split_template.after_list.render (bc :: freshRenderContext) Value.null with
      | mk out res => cases res <;> rfl

end SplitTemplateRenderer

/-- C6: for every split-template renderer, render_item in any state other
than Started (no stashed block context, i.e. before render_start or after
render_end) writes no bytes and changes no state, and render_end called
again from the Ended state is a no-op. -/
theorem C6_render_item_noop_render_end_idempotent
    (r : SplitTemplateRenderer) (data : Value) :
    (r.block_context = none → r.render_item data = (r, "", .ok ())) ∧
    (r.render_end.1).render_end = (r.render_end.1, "", .ok ()) :=
  ⟨fun h => SplitTemplateRenderer.render_item_of_none data h,
   SplitTemplateRenderer.render_end_of_none (SplitTemplateRenderer.render_end_block_context r)⟩

/-- Witness for C6 at a concrete fresh renderer. -/
theorem C6_render_item_noop_render_end_idempotent_witness :
    (SplitTemplateRenderer.new aST).render_item Value.null
      = (SplitTemplateRenderer.new aST, "", .ok ()) :=
  (C6_render_item_noop_render_end_idempotent (SplitTemplateRenderer.new aST) Value.null).1 rfl

/-- C5 counterexample: on a started renderer whose per-item template fails,
the failed render_item leaves no stashed block context, and the following
render_end writes nothing (the after_list marker of the template is ">F",
which does not appear), contradicting the claim that the outer block is
re-stashed so that render_end still renders after_list. -/
theorem C5_counterexample_failed_item_loses_block :
    (rFstarted.render_item Value.null).1.block_context = none ∧
    (rFstarted.render_item Value.null).2.2 = .error { desc := "boom" } ∧
    (rFstarted.render_item Value.null).1.render_end
      = ((rFstarted.render_item Value.null).1, "", .ok ()) :=
  ⟨rfl, rfl, rfl⟩

/-- C5 amended: when render_item fails with a Render error on a Started
renderer, the stashed outer block context is NOT re-stashed: it was taken
and is lost, so the renderer is left without a block context (row_index
unchanged) and every subsequent render_item or render_end is a silent
no-op that renders neither list_content nor after_list. -/
theorem C5_amended_failed_item_leaves_noop_state
    (r : SplitTemplateRenderer) (bc : BlockContext) (data : Value)
    (out : String) (e : RenderError)
    (hb : r.block_context = some bc)
    (hfail : r.split_template.list_content.render
        (SplitTemplateRenderer.item_block_context data r.row_index :: bc ::
          SplitTemplateRenderer.freshRenderContext) Value.null = (out, .error e)) :
    (r.render_item data).1.block_context = none ∧
    (r.render_item data).1.row_index = r.row_index ∧
    (r.render_item data).2 = (out, .error e) ∧
    (∀ d2, (r.render_item data).1.render_item d2
        = ((r.render_item data).1, "", .ok ())) ∧
    (r.render_item data).1.render_end = ((r.render_item data).1, "", .ok ()) := by
  have hitem : r.render_item data = ({ r with block_context := none }, out, .error e) := by
    rw [SplitTemplateRenderer.render_item_of_some data hb, hfail]
  refine ⟨by rw [hitem], by rw [hitem], by rw [hitem], fun d2 => ?_, ?_⟩
  · exact SplitTemplateRenderer.render_item_of_none d2 (by rw [hitem])
  · exact SplitTemplateRenderer.render_end_of_none (by rw [hitem])

/-- Witness for C5 amended at the concrete failing renderer. -/
theorem C5_amended_failed_item_leaves_noop_state_witness :
    (rFstarted.render_item Value.null).1.block_context = none ∧
    (rFstarted.render_item Value.null).1.row_index = rFstarted.row_index ∧
    (rFstarted.render_item Value.null).2 = ("P", .error { desc := "boom" }) ∧
    (∀ d2, (rFstarted.render_item Value.null).1.render_item d2
        = ((rFstarted.render_item Value.null).1, "", .ok ())) ∧
    (rFstarted.render_item Value.null).1.render_end
      = ((rFstarted.render_item Value.null).1, "", .ok ()) :=
  C5_amended_failed_item_leaves_noop_state rFstarted
    { base_value := some Value.null } Value.null "P" { desc := "boom" } rfl rfl

/-- C10: render_start on a renderer in any state (Fresh, Started or Ended)
re-initializes it rather than failing: it renders before_list again, stashes
the newly captured block context (base value = the new data) and resets
row_index to 0, leaving the renderer Started. -/
theorem C10_render_start_reinitializes (r : SplitTemplateRenderer) (d : Value)
    (out : String) (blocks : List BlockContext)
    (h : r.split_template.before_list.render SplitTemplateRenderer.freshRenderContext d
        = (out, .ok blocks)) :
    (r.render_start d).2 = (out, .ok ()) ∧
    (r.render_start d).1.row_index = 0 ∧
    ∃ blk, (r.render_start d).1.block_context = some blk ∧ blk.base_value = some d := by
  rw [SplitTemplateRenderer.render_start_eq, h]
  exact ⟨rfl, rfl, _, rfl, rfl⟩

/-- Witness for C10: restarting an A renderer that is already Ended with
row_index 5. -/
theorem C10_render_start_reinitializes_witness :
    let rEnded : SplitTemplateRenderer :=
      { split_template := aST, block_context := none, row_index := 5 }
    (rEnded.render_start itemRow).2 = ("A<", .ok ()) ∧
    (rEnded.render_start itemRow).1.row_index = 0 ∧
    ∃ blk, (rEnded.render_start itemRow).1.block_context = some blk ∧
      blk.base_value = some itemRow :=
  C10_render_start_reinitializes
    { split_template := aST, block_context := none, row_index := 5 }
    itemRow "A<" SplitTemplateRenderer.freshRenderContext rfl

/-- A template render function that balances its block pushes and pops, as
handlebars templates do: a successful render returns a stack of the same
height it was given. -/
def length_preserving (t : Template) : Prop :=
  ∀ blocks ctx out blocks2,
    t.render blocks ctx = (out, .ok blocks2) → blocks2.length = blocks.length

/-- Drive render_item over a list of rows, recording for each call the
`row_index` counter value at the moment of the call, which render_item
passes to `list_content` as the template-local `row_index` (inside
`item_block_context`). Stops at the first failure. -/
def run_items : SplitTemplateRenderer → List Value →
    SplitTemplateRenderer × List Nat × Except RenderError Unit
  | r, [] => (r, [], .ok ())
  | r, d :: ds =>
      let idx := r.row_index
      match r.render_item d with
      | (r, _, .ok _) =>
          let (r2, idxs, res) := run_items r ds
          (r2, idx :: idxs, res)
      | (r, _, .error e) => (r, [idx], .error e)

/-- Unfolding equation for run_items after a successful render_item. -/
theorem run_items_cons_ok {r r1 : SplitTemplateRenderer} {o1 : String}
    {d : Value} (hit : r.render_item d = (r1, o1, .ok ())) (ds : List Value) :
    run_items r (d :: ds) =
      ((run_items r1 ds).1, r.row_index :: (run_items r1 ds).2.1,
        (run_items r1 ds).2.2) := by
  conv_lhs => unfold run_items
  rw [hit]

/-- Unfolding equation for run_items after a failed render_item. -/
theorem run_items_cons_error {r r1 : SplitTemplateRenderer} {o1 : String}
    {d : Value} {e : RenderError}
    (hit : r.render_item d = (r1, o1, .error e)) (ds : List Value) :
    run_items r (d :: ds) = (r1, [r.row_index], .error e) := by
  unfold run_items
  rw [hit]

/-- Shape of a successful render_item on a Started renderer with a
length-preserving item template: the counter advances by one and the outer
block context is re-stashed. -/
theorem render_item_ok_of_some {r : SplitTemplateRenderer} {bc : BlockContext}
    {data : Value} {r2 : SplitTemplateRenderer} {out : String}
    (h : r.render_item data = (r2, out, .ok ()))
    (hlp : length_preserving r.split_template.list_content)
    (hb : r.block_context = some bc) :
    r2.row_index = r.row_index + 1 ∧ r2.block_context.isSome = true ∧
      r2.split_template = r.split_template := by
  rw [SplitTemplateRenderer.render_item_of_some data hb] at h
  cases hres : r.split_template.list_content.render
      (SplitTemplateRenderer.item_block_context data r.row_index :: bc ::
        SplitTemplateRenderer.freshRenderContext) Value.null with
  | mk o res =>
      rw [hres] at h
      cases res with
      | error e => simp at h
      | ok blocks =>
          have hlen : blocks.length = 3 := by
            simpa [SplitTemplateRenderer.freshRenderContext] using hlp _ _ _ _ hres
          have hr2 : ({ r with block_context := (blocks.drop 1).head?,
                               row_index := r.row_index + 1 }
                      : SplitTemplateRenderer) = r2 := congrArg (fun p => p.1) h
          rw [← hr2]
          refine ⟨rfl, ?_, rfl⟩
          have hpos : 0 < (blocks.drop 1).length := by
            rw [List.length_drop, hlen]
            decide
          cases hd : blocks.drop 1 with
          | nil => rw [hd] at hpos; simp at hpos
          | cons a t => rfl

/-- Along a run of successful render_item calls on a Started renderer, the
recorded row_index locals count up from the starting counter. -/
theorem run_items_ok {ds : List Value} {r r2 : SplitTemplateRenderer} {idxs : List Nat}
    (h : run_items r ds = (r2, idxs, .ok ()))
    (hlp : length_preserving r.split_template.list_content)
    (hb : r.block_context.isSome = true) :
    idxs = List.range' r.row_index ds.length ∧
      r2.row_index = r.row_index + ds.length := by
  induction ds generalizing r idxs with
  | nil =>
      unfold run_items at h
      cases h
      exact ⟨rfl, rfl⟩
  | cons d ds ih =>
      cases hit : r.render_item d with
      | mk r1 rest =>
          obtain ⟨o1, res1⟩ := rest
          cases res1 with
          | error e =>
              rw [run_items_cons_error hit ds] at h
              simp at h
          | ok u =>
              obtain ⟨⟩ := u
              rw [run_items_cons_ok hit ds] at h
              cases hrec : run_items r1 ds with
              | mk r2x p =>
                  obtain ⟨idxs1, res2⟩ := p
                  rw [hrec] at h
                  simp only [Prod.mk.injEq] at h
                  obtain ⟨h1, h2, h3⟩ := h
                  obtain ⟨bc, hbc⟩ := Option.isSome_iff_exists.mp hb
                  obtain ⟨hri, hbs, hst⟩ := render_item_ok_of_some hit hlp hbc
                  rw [h3] at hrec
                  subst h1
                  subst h2
                  have hlp1 : length_preserving r1.split_template.list_content := by
                    rw [hst]; exact hlp
                  obtain ⟨hidxs, hr2⟩ := ih hrec hlp1 hbs
                  constructor
                  · rw [hidxs, hri, List.length_cons, List.range'_succ]
                  · rw [hr2, hri, List.length_cons]
                    omega

/-- C8: render_start resets row_index to 0, and in a run of successful
render_item calls after it the template-local `row_index` passed to
`list_content` for the k-th item equals k (the number of successful
render_item calls since render_start): the recorded locals are
`[0, 1, ..., n-1]` and the counter ends at n. -/
theorem C8_row_index_is_item_index (r0 : SplitTemplateRenderer) (d0 : Value)
    (ds : List Value) (r1 r2 : SplitTemplateRenderer) (out0 : String)
    (idxs : List Nat)
    (hlp : length_preserving r0.split_template.list_content)
    (hstart : r0.render_start d0 = (r1, out0, .ok ()))
    (hrun : run_items r1 ds = (r2, idxs, .ok ())) :
    r1.row_index = 0 ∧ idxs = List.range ds.length ∧ r2.row_index = ds.length := by
  rw [SplitTemplateRenderer.render_start_eq] at hstart
  cases hres : r0.split_template.before_list.render
      SplitTemplateRenderer.freshRenderContext d0 with
  | mk o res =>
      rw [hres] at hstart
      cases res with
      | error e => simp at hstart
      | ok blocks =>
          have hr1 : ({ r0 with
              block_context :=
                some { (blocks.head?.getD {}) with base_value := some d0 },
              row_index := 0 } : SplitTemplateRenderer) = r1 :=
            congrArg (fun p => p.1) hstart
          have hrow : r1.row_index = 0 := by rw [← hr1]
          have hsome : r1.block_context.isSome = true := by rw [← hr1]; rfl
          have hst : r1.split_template = r0.split_template := by rw [← hr1]
          have hlp1 : length_preserving r1.split_template.list_content := by
            rw [hst]; exact hlp
          obtain ⟨hidxs, hr2⟩ := run_items_ok hrun hlp1 hsome
          rw [hrow] at hidxs hr2
          refine ⟨hrow, ?_, ?_⟩
          · rw [hidxs, List.range_eq_range']
          · rw [hr2]
            omega

/-- Witness for C8: an A renderer started once and fed two rows records
row_index locals 0 and 1. -/
theorem C8_row_index_is_item_index_witness :
    (((SplitTemplateRenderer.new aST).render_start Value.null).1.row_index = 0) ∧
    (run_items ((SplitTemplateRenderer.new aST).render_start Value.null).1
        [itemRow, itemRow]).2.1 = List.range 2 ∧
    (run_items ((SplitTemplateRenderer.new aST).render_start Value.null).1
        [itemRow, itemRow]).1.row_index = 2 :=
  C8_row_index_is_item_index (SplitTemplateRenderer.new aST) Value.null
    [itemRow, itemRow]
    ((SplitTemplateRenderer.new aST).render_start Value.null).1
    (run_items ((SplitTemplateRenderer.new aST).render_start Value.null).1
      [itemRow, itemRow]).1
    "A<"
    (run_items ((SplitTemplateRenderer.new aST).render_start Value.null).1
      [itemRow, itemRow]).2.1
    (fun blocks ctx out blocks2 h => by
      injection h with h1 h2
      injection h2 with h3
      rw [h3])
    rfl rfl

/-- Recognize a shell render_start event. -/
def isShellStart : Event → Bool
  | .shell .start _ => true
  | _ => false

/-- Recognize a shell render_end event. -/
def isShellEnd : Event → Bool
  | .shell .close _ => true
  | _ => false

/-- Number of shell render_start calls in a trace. -/
def shell_starts (evs : List Event) : Nat := evs.countP isShellStart

/-- Number of shell render_end calls in a trace. -/
def shell_ends (evs : List Event) : Nat := evs.countP isShellEnd

/-- C2 counterexample: on the concrete registry, the rows with component
values [A, A, B, A] produce the lifecycle trace start(A), end(A), start(A),
end(A), start(B), end(B), start(A), end(A) — every row carrying an explicit
component closes and reopens, and no item event occurs — which differs from
the claimed start(A), item, item, end(A), start(B), end(B), start(A), item,
end(A). -/
theorem C2_counterexample_AABA_trace :
    comp_lifecycle (RenderContext.close (RenderContext.run_events fs0 10 st0X
        [.row cA, .row cA, .row cB, .row cA]).1).events =
      [("A", .start), ("A", .close), ("A", .start), ("A", .close),
       ("B", .start), ("B", .close), ("A", .start), ("A", .close)] ∧
    ([("A", .start), ("A", .close), ("A", .start), ("A", .close),
      ("B", .start), ("B", .close), ("A", .start), ("A", .close)]
      : List (String × EventKind)) ≠
      [("A", .start), ("A", .item), ("A", .item), ("A", .close),
       ("B", .start), ("B", .close), ("A", .start), ("A", .item), ("A", .close)] :=
  ⟨rfl, by decide⟩

/-- C2 amended: a row whose component column repeats the currently open
component still closes the current renderer and opens a fresh one (the
dispatcher never compares the two names), and render_item is never invoked
for a row carrying an explicit component value; hence [A, A, B, A] yields
start(A), end(A), start(A), end(A), start(B), end(B), start(A), end(A). -/
theorem C2_amended_AABA_reopens_every_row :
    comp_lifecycle (RenderContext.close (RenderContext.run_events fs0 10 st0X
        [.row cA, .row cA, .row cB, .row cA]).1).events =
      [("A", .start), ("A", .close), ("A", .start), ("A", .close),
       ("B", .start), ("B", .close), ("A", .start), ("A", .close)] ∧
    (RenderContext.run_events fs0 10 st0X
        [.row cA, .row cA, .row cB, .row cA]).2 = true :=
  ⟨rfl, rfl⟩

/-- C1 counterexample: open component A with one rendered item, inject an
error, then feed another item row for A. The renderer restored by
handle_error has lost its block context (it is `some none` below), the item
row after the error writes nothing, and the closed document contains only
one item marker: "S[A<(i)>AE<boom>E]S" — so the restored component does NOT
keep its block context and subsequent rows do NOT render items. -/
theorem C1_counterexample_error_kills_restored_block :
    ((RenderContext.run_events fs0 10 st0X
        [.row cA, .row itemRow, .error eBoom]).1.current_component.map
        SplitTemplateRenderer.block_context) = some none ∧
    (RenderContext.handle_row fs0 10
        (RenderContext.run_events fs0 10 st0X
          [.row cA, .row itemRow, .error eBoom]).1 itemRow).1.writer
      = (RenderContext.run_events fs0 10 st0X
          [.row cA, .row itemRow, .error eBoom]).1.writer ∧
    (RenderContext.close (RenderContext.run_events fs0 10 st0X
        [.row cA, .row itemRow, .error eBoom, .row itemRow]).1).writer
      = "S[A<(i)>AE<boom>E]S" :=
  ⟨rfl, rfl, rfl⟩

/-- C1 amended: handling an error between two rows of the same component
closes the open component, renders the inline error block and completes the
outer render (all calls succeed and the shell still closes last), and the
restored renderer keeps its row_index (1 here) — but its block context was
consumed when the component was closed, so rows arriving after the error
render no further items: the output keeps only the item of the first row. -/
theorem C1_amended_error_inline_but_block_consumed :
    (RenderContext.run_events fs0 10 st0X
        [.row cA, .row itemRow, .error eBoom, .row itemRow]).2 = true ∧
    (RenderContext.close (RenderContext.run_events fs0 10 st0X
        [.row cA, .row itemRow, .error eBoom, .row itemRow]).1).writer
      = "S[A<(i)>AE<boom>E]S" ∧
    ((RenderContext.run_events fs0 10 st0X
        [.row cA, .row itemRow, .error eBoom]).1.current_component.map
        (fun c => (c.block_context, c.row_index))) = some (none, 1) ∧
    (RenderContext.close (RenderContext.run_events fs0 10 st0X
        [.row cA, .row itemRow, .error eBoom, .row itemRow]).1).events.getLast?
      = some (.shell .close "]S") :=
  ⟨rfl, rfl, rfl, rfl⟩

set_option maxRecDepth 100000 in
/-- C4 counterexample: a dynamic row nesting self-referential dynamic rows
257 levels deep is handled successfully (the claim says it must fail with
RecursionLimit). -/
theorem C4_counterexample_257_levels_succeed :
    (RenderContext.handle_row fs0 300 stOpenA (dynNest 257)).2 = .ok () :=
  rfl

set_option maxRecDepth 100000 in
/-- C4 amended: the entry guard `recursion_depth <= 256` admits the 257th
nested dynamic call (during which the depth counter reaches 257), so 257
levels of nesting succeed; RecursionLimit fires only at 258 levels, and
after the failure is signaled no bytes have been written and the depth
counter is restored. -/
theorem C4_amended_limit_fires_at_258 :
    (RenderContext.handle_row fs0 300 stOpenA (dynNest 257)).2 = .ok () ∧
    (RenderContext.handle_row fs0 300 stOpenA (dynNest 258)).2
      = .error .RecursionLimit ∧
    (RenderContext.handle_row fs0 300 stOpenA (dynNest 258)).1.writer
      = stOpenA.writer ∧
    (RenderContext.handle_row fs0 300 stOpenA (dynNest 258)).1.recursion_depth
      = stOpenA.recursion_depth :=
  ⟨rfl, rfl, rfl, rfl⟩

/-- C7 counterexample: two error events handled on a fresh context (before
any row) are a legal call sequence in which shell.render_start is emitted
twice — the claim that exactly one shell.render_start occurs regardless of
the call sequence is false. -/
theorem C7_counterexample_two_shell_starts :
    shell_starts (RenderContext.run_events fs0 10 st0X
        [.error eBoom, .error eBoom]).1.events = 2 ∧
    (RenderContext.run_events fs0 10 st0X
        [.error eBoom, .error eBoom]).2 = true :=
  ⟨rfl, rfl⟩

/-- Unfolding equation for render_dynamic below the depth limit. -/
theorem render_dynamic_eq (fromStr : String → Option Value)
    (hr : RenderContext → Value → RenderContext × Except Err Unit)
    (st : RenderContext) (data : Value)
    (hdepth : st.recursion_depth ≤ MAX_RECURSION_DEPTH) :
    RenderContext.render_dynamic fromStr hr st data =
      match RenderContext.dynamic_properties fromStr data with
      | none => (st, .error .BadDynamic)
      | some properties => RenderContext.dyn_loop hr st properties := by
  unfold RenderContext.render_dynamic
  rw [if_neg (by omega)]

/-- The dispatcher takes the dynamic branch whenever a component is open
and the row has component "dynamic". -/
theorem handle_row_dynamic_eq (fromStr : String → Option Value) (fuel : Nat)
    (st : RenderContext) (c : SplitTemplateRenderer)
    (flds : List (String × Value))
    (hc : st.current_component = some c)
    (hcomp : flds.lookup "component" = some (Value.str "dynamic")) :
    RenderContext.handle_row fromStr (fuel + 1) st (Value.obj flds)
      = RenderContext.render_dynamic fromStr
          (RenderContext.handle_row fromStr fuel) st (Value.obj flds) := by
  have hnew : ((Value.obj flds).as_object.bind fun o => o.lookup "component").bind
      Value.as_str = some "dynamic" := by
    simp [Value.as_object, hcomp, Value.as_str]
  conv_lhs => unfold RenderContext.handle_row
  rw [hc, hnew]
  rfl

/-- The properties extraction comes back empty exactly when the looked-up
value reduces to none under the match of render_dynamic. -/
theorem dynamic_properties_none_of_lookup (fromStr : String → Option Value)
    (flds : List (String × Value)) {v : Value}
    (h : flds.lookup "properties" = some v)
    (hv : (match v with
           | .str s =>
               match fromStr s with
               | some (.arr values) => some values
               | some (.obj fields) => some [Value.obj fields]
               | _ => none
           | .obj fields => some [Value.obj fields]
           | _ => none) = none) :
    RenderContext.dynamic_properties fromStr (Value.obj flds) = none := by
  unfold RenderContext.dynamic_properties
  rw [show (Value.obj flds).get "properties" = flds.lookup "properties" from rfl, h]
  exact hv

/-- C3 amended: with a component open and a row whose component is
"dynamic" (and the recursion guard passing), the dispatcher accepts a
`properties` field that is (a) a JSON string parsing to an array of
arbitrary values or to a single object, or (b) a direct object, and feeds
each resulting value back through handle_row (via dyn_loop, which wraps
each recursive call in a depth increment); every other properties value
fails with BadDynamic, covered here constructor by constructor: an absent
field, a direct array, a direct null, boolean or number, an unparseable
string, and a string parsing to a null, boolean, number or string. -/
theorem C3_amended_dynamic_properties_cases
    (fromStr : String → Option Value) (fuel : Nat) (st : RenderContext)
    (c : SplitTemplateRenderer) (flds : List (String × Value))
    (hc : st.current_component = some c)
    (hdepth : st.recursion_depth ≤ MAX_RECURSION_DEPTH)
    (hcomp : flds.lookup "component" = some (Value.str "dynamic")) :
    (flds.lookup "properties" = none →
      RenderContext.handle_row fromStr (fuel + 1) st (Value.obj flds)
        = (st, .error .BadDynamic)) ∧
    (∀ xs, flds.lookup "properties" = some (Value.arr xs) →
      RenderContext.handle_row fromStr (fuel + 1) st (Value.obj flds)
        = (st, .error .BadDynamic)) ∧
    (∀ sfs, flds.lookup "properties" = some (Value.obj sfs) →
      RenderContext.handle_row fromStr (fuel + 1) st (Value.obj flds)
        = RenderContext.dyn_loop (RenderContext.handle_row fromStr fuel) st
            [Value.obj sfs]) ∧
    (∀ s, flds.lookup "properties" = some (Value.str s) →
      (fromStr s = none →
        RenderContext.handle_row fromStr (fuel + 1) st (Value.obj flds)
          = (st, .error .BadDynamic)) ∧
      (∀ xs, fromStr s = some (Value.arr xs) →
        RenderContext.handle_row fromStr (fuel + 1) st (Value.obj flds)
          = RenderContext.dyn_loop (RenderContext.handle_row fromStr fuel) st xs) ∧
      (∀ sfs, fromStr s = some (Value.obj sfs) →
        RenderContext.handle_row fromStr (fuel + 1) st (Value.obj flds)
          = RenderContext.dyn_loop (RenderContext.handle_row fromStr fuel) st
              [Value.obj sfs])) ∧
    (flds.lookup "properties" = some Value.null →
      RenderContext.handle_row fromStr (fuel + 1) st (Value.obj flds)
        = (st, .error .BadDynamic)) ∧
    (∀ b, flds.lookup "properties" = some (Value.bool b) →
      RenderContext.handle_row fromStr (fuel + 1) st (Value.obj flds)
        = (st, .error .BadDynamic)) ∧
    (∀ n, flds.lookup "properties" = some (Value.num n) →
      RenderContext.handle_row fromStr (fuel + 1) st (Value.obj flds)
        = (st, .error .BadDynamic)) ∧
    (∀ s, flds.lookup "properties" = some (Value.str s) →
      (fromStr s = some Value.null →
        RenderContext.handle_row fromStr (fuel + 1) st (Value.obj flds)
          = (st, .error .BadDynamic)) ∧
      (∀ b, fromStr s = some (Value.bool b) →
        RenderContext.handle_row fromStr (fuel + 1) st (Value.obj flds)
          = (st, .error .BadDynamic)) ∧
      (∀ n, fromStr s = some (Value.num n) →
        RenderContext.handle_row fromStr (fuel + 1) st (Value.obj flds)
          = (st, .error .BadDynamic)) ∧
      (∀ s2, fromStr s = some (Value.str s2) →
        RenderContext.handle_row fromStr (fuel + 1) st (Value.obj flds)
          = (st, .error .BadDynamic))) := by
  have hmain := handle_row_dynamic_eq fromStr fuel st c flds hc hcomp
  have hrd := render_dynamic_eq fromStr (RenderContext.handle_row fromStr fuel) st
    (Value.obj flds) hdepth
  have hget : (Value.obj flds).get "properties" = flds.lookup "properties" := rfl
  refine ⟨?_, ?_, ?_, ?_, ?_, ?_, ?_, ?_⟩
  · intro h
    rw [hmain, hrd]
    have : RenderContext.dynamic_properties fromStr (Value.obj flds) = none := by
      unfold RenderContext.dynamic_properties
      rw [hget, h]
      rfl
    rw [this]
  · intro xs h
    rw [hmain, hrd, dynamic_properties_none_of_lookup fromStr flds h rfl]
  · intro sfs h
    rw [hmain, hrd]
    have : RenderContext.dynamic_properties fromStr (Value.obj flds)
        = some [Value.obj sfs] := by
      unfold RenderContext.dynamic_properties
      rw [hget, h]
      rfl
    rw [this]
  · intro s h
    refine ⟨?_, ?_, ?_⟩
    · intro hs
      rw [hmain, hrd,
        dynamic_properties_none_of_lookup fromStr flds h (by
          show (match fromStr s with
            | some (.arr values) => some values
            | some (.obj fields) => some [Value.obj fields]
            | _ => none) = none
          rw [hs])]
    · intro xs hs
      rw [hmain, hrd]
      have : RenderContext.dynamic_properties fromStr (Value.obj flds) = some xs := by
        unfold RenderContext.dynamic_properties
        rw [hget, h]
        show (match fromStr s with
          | some (.arr values) => some values
          | some (.obj fields) => some [Value.obj fields]
          | _ => none) = some xs
        rw [hs]
      rw [this]
    · intro sfs hs
      rw [hmain, hrd]
      have : RenderContext.dynamic_properties fromStr (Value.obj flds)
          = some [Value.obj sfs] := by
        unfold RenderContext.dynamic_properties
        rw [hget, h]
        show (match fromStr s with
          | some (.arr values) => some values
          | some (.obj fields) => some [Value.obj fields]
          | _ => none) = some [Value.obj sfs]
        rw [hs]
      rw [this]
  · intro h
    rw [hmain, hrd, dynamic_properties_none_of_lookup fromStr flds h rfl]
  · intro b h
    rw [hmain, hrd, dynamic_properties_none_of_lookup fromStr flds h rfl]
  · intro n h
    rw [hmain, hrd, dynamic_properties_none_of_lookup fromStr flds h rfl]
  · intro s h
    refine ⟨?_, ?_, ?_, ?_⟩
    · intro hs
      rw [hmain, hrd,
        dynamic_properties_none_of_lookup fromStr flds h (by
          show (match fromStr s with
            | some (.arr values) => some values
            | some (.obj fields) => some [Value.obj fields]
            | _ => none) = none
          rw [hs])]
    · intro b hs
      rw [hmain, hrd,
        dynamic_properties_none_of_lookup fromStr flds h (by
          show (match fromStr s with
            | some (.arr values) => some values
            | some (.obj fields) => some [Value.obj fields]
            | _ => none) = none
          rw [hs])]
    · intro n hs
      rw [hmain, hrd,
        dynamic_properties_none_of_lookup fromStr flds h (by
          show (match fromStr s with
            | some (.arr values) => some values
            | some (.obj fields) => some [Value.obj fields]
            | _ => none) = none
          rw [hs])]
    · intro s2 hs
      rw [hmain, hrd,
        dynamic_properties_none_of_lookup fromStr flds h (by
          show (match fromStr s with
            | some (.arr values) => some values
            | some (.obj fields) => some [Value.obj fields]
            | _ => none) = none
          rw [hs])]

/-- Witness for C3 amended: a dynamic row with a direct-object properties
field, handled while component A is open, feeds that object back through
the dispatcher. -/
theorem C3_amended_dynamic_properties_cases_witness :
    RenderContext.handle_row fs0 11 stOpenA
        (Value.obj [("component", Value.str "dynamic"),
          ("properties", Value.obj [("x", Value.num 1)])])
      = RenderContext.dyn_loop (RenderContext.handle_row fs0 10) stOpenA
          [Value.obj [("x", Value.num 1)]] :=
  (C3_amended_dynamic_properties_cases fs0 10 stOpenA
      (SplitTemplateRenderer.new aST)
      [("component", Value.str "dynamic"),
       ("properties", Value.obj [("x", Value.num 1)])]
      rfl (by decide) rfl).2.2.1 [("x", Value.num 1)] rfl

/-- C3 counterexample: a dynamic row whose `properties` is a direct JSON
array of objects — accepted according to the claim — is rejected with
BadDynamic (only strings and objects are accepted). -/
theorem C3_counterexample_direct_array_rejected :
    (RenderContext.handle_row fs0 10 stOpenA
        (Value.obj [("component", Value.str "dynamic"),
          ("properties", Value.arr [Value.obj [("component", Value.str "A")]])])).2
      = .error .BadDynamic :=
  rfl

/-! Recursion-depth preservation (C9): every dispatcher operation returns
with `recursion_depth` exactly as it found it, because the only writes are
the increment/decrement pair around each recursive call in dyn_loop. -/

/-- andThen preserves any state projection both parts preserve. -/
theorem andThen_depth {d : Nat} (x : RenderContext × Except Err Unit)
    (f : RenderContext → RenderContext × Except Err Unit)
    (hx : (x.1).recursion_depth = d)
    (hf : ∀ st, ((f st).1).recursion_depth = st.recursion_depth) :
    ((RenderContext.andThen x f).1).recursion_depth = d := by
  unfold RenderContext.andThen
  cases x with
  | mk st res =>
      cases res with
      | error e => exact hx
      | ok u => rw [hf st]; exact hx

theorem shell_render_start_depth (st : RenderContext) (data : Value) :
    ((st.shell_render_start data).1).recursion_depth = st.recursion_depth := rfl

theorem shell_render_item_depth (st : RenderContext) (data : Value) :
    ((st.shell_render_item data).1).recursion_depth = st.recursion_depth := rfl

theorem close_component_depth (st : RenderContext) :
    ((st.close_component).1).recursion_depth = st.recursion_depth := by
  unfold RenderContext.close_component
  cases st.current_component <;> rfl

theorem open_component_with_data_depth (st : RenderContext) (component : String)
    (data : Value) :
    ((st.open_component_with_data component data).1).recursion_depth
      = st.recursion_depth := by
  unfold RenderContext.open_component_with_data
  refine andThen_depth _ _ (close_component_depth st) fun st1 => ?_
  cases RenderContext.create_renderer st1.registry component <;> rfl

theorem render_current_template_with_data_depth (st : RenderContext) (data : Value) :
    ((st.render_current_template_with_data data).1).recursion_depth
      = st.recursion_depth := by
  unfold RenderContext.render_current_template_with_data
  cases st.current_component with
  | none => rfl
  | some rdr => exact andThen_depth _ _ rfl fun st1 => shell_render_item_depth st1 _

/-- dyn_loop preserves the depth whenever the recursive dispatcher does. -/
theorem dyn_loop_depth (hr : RenderContext → Value → RenderContext × Except Err Unit)
    (hhr : ∀ st data, ((hr st data).1).recursion_depth = st.recursion_depth)
    (props : List Value) :
    ∀ st, ((RenderContext.dyn_loop hr st props).1).recursion_depth
      = st.recursion_depth := by
  induction props with
  | nil => intro st; rfl
  | cons p rest ih =>
      intro st
      unfold RenderContext.dyn_loop
      cases hcall : hr { st with recursion_depth := st.recursion_depth + 1 } p with
      | mk st2 res =>
          have hd2 : st2.recursion_depth = st.recursion_depth + 1 := by
            have h := hhr { st with recursion_depth := st.recursion_depth + 1 } p
            rw [hcall] at h
            exact h
          cases res with
          | error e =>
              simp only [hcall]
              simp [hd2]
          | ok u =>
              simp only [hcall]
              rw [ih { st2 with recursion_depth := st2.recursion_depth - 1 }]
              simp [hd2]

/-- render_dynamic preserves the depth whenever the recursive dispatcher
does: the guard and the BadDynamic exit touch nothing, and the loop is
balanced. -/
theorem render_dynamic_depth (fromStr : String → Option Value)
    (hr : RenderContext → Value → RenderContext × Except Err Unit)
    (hhr : ∀ st data, ((hr st data).1).recursion_depth = st.recursion_depth)
    (st : RenderContext) (data : Value) :
    ((RenderContext.render_dynamic fromStr hr st data).1).recursion_depth
      = st.recursion_depth := by
  unfold RenderContext.render_dynamic
  split
  · rfl
  · split
    · rfl
    · exact dyn_loop_depth hr hhr _ st

/-- The dispatcher preserves the depth at every fuel. -/
theorem handle_row_depth (fromStr : String → Option Value) :
    ∀ (fuel : Nat) (st : RenderContext) (data : Value),
      ((RenderContext.handle_row fromStr fuel st data).1).recursion_depth
        = st.recursion_depth := by
  intro fuel
  induction fuel with
  | zero => intro st data; rfl
  | succ f ih =>
      intro st data
      unfold RenderContext.handle_row
      dsimp only
      split
      · exact andThen_depth _ _ (shell_render_start_depth st _) fun st1 =>
          open_component_with_data_depth st1 _ _
      · exact andThen_depth _ _ (shell_render_start_depth st _) fun st1 =>
          open_component_with_data_depth st1 _ _
      · exact andThen_depth _ _ (shell_render_start_depth st _) fun st1 =>
          open_component_with_data_depth st1 _ _
      · exact render_dynamic_depth fromStr _ ih st data
      · exact open_component_with_data_depth st _ _
      · exact render_current_template_with_data_depth st _

/-- C9: whatever the render context state, render_dynamic returns with
recursion_depth equal to its value on entry, both on success and when a
recursive handle_row call returns an error — the increment around each
recursive call is matched by a decrement before the error propagates. -/
theorem C9_render_dynamic_preserves_recursion_depth
    (fromStr : String → Option Value) (fuel : Nat) (st : RenderContext)
    (data : Value) :
    ((RenderContext.render_dynamic fromStr (RenderContext.handle_row fromStr fuel)
        st data).1).recursion_depth = st.recursion_depth :=
  render_dynamic_depth fromStr _ (handle_row_depth fromStr fuel) st data

/-! Shell lifecycle accounting (C7): shell render_start events are emitted
only by handle_row on a closed context and by handle_error on a closed
context; shell render_end events only by close. -/

/-- Check of an Except result. -/
def exceptOk {α β : Type} : Except α β → Bool
  | .ok _ => true
  | .error _ => false

/-- Whether the two renders performed by close would succeed: the current
render_end of the current component (if one is open) and render_end of
the shell. -/
def close_renders_ok (st : RenderContext) : Bool :=
  (match st.current_component with
   | some c => exceptOk c.render_end.2.2
   | none => true) && exceptOk st.shell_renderer.render_end.2.2

/-- Counting helper: both shell counters are additive over appends. -/
theorem shell_counts_append (l1 l2 : List Event) :
    shell_starts (l1 ++ l2) = shell_starts l1 + shell_starts l2 ∧
    shell_ends (l1 ++ l2) = shell_ends l1 + shell_ends l2 :=
  ⟨List.countP_append _ _ _, List.countP_append _ _ _⟩

theorem shell_render_start_shell (st : RenderContext) (data : Value) :
    shell_starts ((st.shell_render_start data).1).events
        = shell_starts st.events + 1 ∧
    shell_ends ((st.shell_render_start data).1).events = shell_ends st.events := by
  show shell_starts (st.events ++ [.shell .start (st.shell_renderer.render_start data).2.1])
      = _ ∧ shell_ends (st.events ++ [.shell .start _]) = _
  simp [shell_starts, shell_ends, List.countP_append, List.countP_cons, isShellStart,
    isShellEnd]

theorem shell_render_item_shell (st : RenderContext) (data : Value) :
    shell_starts ((st.shell_render_item data).1).events = shell_starts st.events ∧
    shell_ends ((st.shell_render_item data).1).events = shell_ends st.events := by
  show shell_starts (st.events ++ [.shell .item (st.shell_renderer.render_item data).2.1])
      = _ ∧ shell_ends (st.events ++ [.shell .item _]) = _
  simp [shell_starts, shell_ends, List.countP_append, List.countP_cons, isShellStart,
    isShellEnd]

theorem close_component_shell (st : RenderContext) :
    shell_starts ((st.close_component).1).events = shell_starts st.events ∧
    shell_ends ((st.close_component).1).events = shell_ends st.events := by
  unfold RenderContext.close_component
  cases st.current_component with
  | none => exact ⟨rfl, rfl⟩
  | some c =>
      show shell_starts (st.events ++ [.comp c.name .close c.render_end.2.1]) = _ ∧
        shell_ends (st.events ++ [.comp c.name .close _]) = _
      simp [shell_starts, shell_ends, List.countP_append, List.countP_cons, isShellStart,
        isShellEnd]

/-- close_component keeps an open component present (in ended state). -/
theorem close_component_current (st : RenderContext) {c : SplitTemplateRenderer}
    (h : st.current_component = some c) :
    ((st.close_component).1).current_component = some c.render_end.1 := by
  unfold RenderContext.close_component
  rw [h]

theorem open_component_with_data_shell (st : RenderContext) (component : String)
    (data : Value) :
    shell_starts ((st.open_component_with_data component data).1).events
        = shell_starts st.events ∧
    shell_ends ((st.open_component_with_data component data).1).events
        = shell_ends st.events := by
  unfold RenderContext.open_component_with_data RenderContext.andThen
  cases hcc : st.close_component with
  | mk st1 res =>
      have h1 := close_component_shell st
      rw [hcc] at h1
      cases res with
      | error e => exact h1
      | ok u =>
          dsimp only
          cases RenderContext.create_renderer st1.registry component with
          | error e => exact h1
          | ok r =>
              refine ⟨?_, ?_⟩
              · show shell_starts (st1.events ++ [.comp r.name .start
                    (r.render_start data).2.1]) = _
                simp [shell_starts, List.countP_append, List.countP_cons, isShellStart]
                exact h1.1
              · show shell_ends (st1.events ++ [.comp r.name .start
                    (r.render_start data).2.1]) = _
                simp [shell_ends, List.countP_append, List.countP_cons, isShellEnd]
                exact h1.2

/-- A successful open_component_with_data leaves a component open. -/
theorem open_component_with_data_ok_current {st : RenderContext} {component : String}
    {data : Value} {st' : RenderContext}
    (h : st.open_component_with_data component data = (st', .ok ())) :
    st'.current_component.isSome = true := by
  unfold RenderContext.open_component_with_data RenderContext.andThen at h
  cases hcc : st.close_component with
  | mk st1 res =>
      rw [hcc] at h
      cases res with
      | error e => simp at h
      | ok u =>
          dsimp only at h
          cases hcr : RenderContext.create_renderer st1.registry component with
          | error e => rw [hcr] at h; simp at h
          | ok r =>
              rw [hcr] at h
              have h1 := congrArg (fun p => p.1.current_component) h
              simp only at h1
              rw [← h1]
              rfl

theorem render_current_shell (st : RenderContext) (data : Value) :
    shell_starts ((st.render_current_template_with_data data).1).events
        = shell_starts st.events ∧
    shell_ends ((st.render_current_template_with_data data).1).events
        = shell_ends st.events := by
  unfold RenderContext.render_current_template_with_data RenderContext.andThen
  cases st.current_component with
  | none => exact ⟨rfl, rfl⟩
  | some rdr =>
      dsimp only
      cases hri : rdr.render_item data with
      | mk r p =>
          obtain ⟨out, res⟩ := p
          dsimp only [Except.mapError]
          cases res with
          | error e =>
              show shell_starts (st.events ++ [.comp rdr.name .item out]) = _ ∧
                shell_ends (st.events ++ [.comp rdr.name .item out]) = _
              simp [shell_starts, shell_ends, List.countP_append, List.countP_cons,
                isShellStart, isShellEnd]
          | ok u =>
              have h2 := shell_render_item_shell
                { st with current_component := some r, writer := st.writer ++ out,
                          events := st.events ++ [.comp rdr.name .item out] } Value.null
              refine ⟨h2.1.trans ?_, h2.2.trans ?_⟩
              · show shell_starts (st.events ++ [.comp rdr.name .item out]) = _
                simp [shell_starts, List.countP_append, List.countP_cons, isShellStart]
              · show shell_ends (st.events ++ [.comp rdr.name .item out]) = _
                simp [shell_ends, List.countP_append, List.countP_cons, isShellEnd]

/-- A successful render_current_template_with_data keeps a component open. -/
theorem render_current_ok_current {st : RenderContext} {data : Value}
    {st' : RenderContext}
    (h : st.render_current_template_with_data data = (st', .ok ())) :
    st'.current_component.isSome = true := by
  unfold RenderContext.render_current_template_with_data RenderContext.andThen at h
  cases hc : st.current_component with
  | none => rw [hc] at h; simp at h
  | some rdr =>
      rw [hc] at h
      dsimp only at h
      cases hri : rdr.render_item data with
      | mk r p =>
          obtain ⟨out, res⟩ := p
          rw [hri] at h
          dsimp only [Except.mapError] at h
          cases res with
          | error e => simp at h
          | ok u =>
              have h1 := congrArg (fun p => p.1.current_component) h
              simp only at h1
              rw [← h1]
              rfl

/-- The invariant carried across dispatcher steps while a component is
open: a component is still open and no shell start/end call was made. -/
def shell_inv (st st2 : RenderContext) : Prop :=
  st2.current_component.isSome = true ∧
  shell_starts st2.events = shell_starts st.events ∧
  shell_ends st2.events = shell_ends st.events

/-- Inversion of a successful andThen. -/
theorem andThen_ok_inv {x : RenderContext × Except Err Unit}
    {f : RenderContext → RenderContext × Except Err Unit} {st2 : RenderContext}
    (h : RenderContext.andThen x f = (st2, .ok ())) :
    ∃ st1, x = (st1, .ok ()) ∧ f st1 = (st2, .ok ()) := by
  unfold RenderContext.andThen at h
  cases x with
  | mk st res =>
      cases res with
      | error e => simp at h
      | ok u => exact ⟨st, rfl, h⟩

/-- A successful handle_error entered with a component open restores an
open component and makes no shell start or end call. -/
theorem handle_error_some_invariant (st : RenderContext) (e : ErrObj)
    (st2 : RenderContext)
    (hsome : st.current_component.isSome = true)
    (h : st.handle_error e = (st2, .ok ())) : shell_inv st st2 := by
  unfold RenderContext.handle_error RenderContext.open_component at h
  rw [if_pos hsome] at h
  obtain ⟨st1, hx1, h⟩ := andThen_ok_inv h
  try dsimp only at h
  obtain ⟨st3, hx3, h⟩ := andThen_ok_inv h
  try dsimp only at h
  obtain ⟨st4, hx4, h⟩ := andThen_ok_inv h
  try dsimp only at h
  obtain ⟨st5, hx5, h⟩ := andThen_ok_inv h
  try dsimp only at h
  have hfin : ({ st5 with current_component := st1.current_component }
      : RenderContext) = st2 := congrArg (fun p => p.1) h
  have hf1 : (st.close_component).1 = st1 := by rw [hx1]
  have hf3 : (({ st1 with current_component := none }
      : RenderContext).open_component_with_data "error" Value.null).1 = st3 := by
    rw [hx3]
  have hf4 : (st3.render_current_template_with_data
      (Value.obj
        [("query_number", Value.num st3.current_statement),
         ("description", Value.str e.description),
         ("backtrace", Value.arr (e.backtrace.map Value.str))])).1 = st4 := by
    rw [hx4]
  have hf5 : (st4.close_component).1 = st5 := by rw [hx5]
  refine ⟨?_, ?_, ?_⟩
  · obtain ⟨c, hc⟩ := Option.isSome_iff_exists.mp hsome
    have := close_component_current st hc
    rw [hf1] at this
    rw [← hfin]
    show (st1.current_component).isSome = true
    rw [this]
    rfl
  · rw [← hfin]
    show shell_starts st5.events = shell_starts st.events
    have e5 : shell_starts st5.events = shell_starts st4.events := by
      rw [← hf5]; exact (close_component_shell st4).1
    have e4 : shell_starts st4.events = shell_starts st3.events := by
      rw [← hf4]; exact (render_current_shell st3 _).1
    have e3 : shell_starts st3.events = shell_starts st1.events := by
      rw [← hf3]
      exact (open_component_with_data_shell
        { st1 with current_component := none } _ _).1
    have e1 : shell_starts st1.events = shell_starts st.events := by
      rw [← hf1]; exact (close_component_shell st).1
    rw [e5, e4, e3, e1]
  · rw [← hfin]
    show shell_ends st5.events = shell_ends st.events
    have e5 : shell_ends st5.events = shell_ends st4.events := by
      rw [← hf5]; exact (close_component_shell st4).2
    have e4 : shell_ends st4.events = shell_ends st3.events := by
      rw [← hf4]; exact (render_current_shell st3 _).2
    have e3 : shell_ends st3.events = shell_ends st1.events := by
      rw [← hf3]
      exact (open_component_with_data_shell
        { st1 with current_component := none } _ _).2
    have e1 : shell_ends st1.events = shell_ends st.events := by
      rw [← hf1]; exact (close_component_shell st).2
    rw [e5, e4, e3, e1]

/-- dyn_loop keeps the invariant whenever the recursive dispatcher does. -/
theorem dyn_loop_some_invariant
    (hr : RenderContext → Value → RenderContext × Except Err Unit)
    (hhr : ∀ st data st2, st.current_component.isSome = true →
      hr st data = (st2, .ok ()) → shell_inv st st2) :
    ∀ (props : List Value) (st st2 : RenderContext),
      st.current_component.isSome = true →
      RenderContext.dyn_loop hr st props = (st2, .ok ()) → shell_inv st st2 := by
  intro props
  induction props with
  | nil =>
      intro st st2 hs h
      unfold RenderContext.dyn_loop at h
      simp only [Prod.mk.injEq] at h
      rw [← h.1]
      exact ⟨hs, rfl, rfl⟩
  | cons p rest ih =>
      intro st st2 hs h
      unfold RenderContext.dyn_loop at h
      cases hcall : hr { st with recursion_depth := st.recursion_depth + 1 } p with
      | mk stc res =>
          simp only [hcall] at h
          cases res with
          | error e => simp at h
          | ok u =>
              have hinv1 := hhr { st with recursion_depth := st.recursion_depth + 1 }
                p stc hs hcall
              have hinv2 := ih { stc with recursion_depth := stc.recursion_depth - 1 }
                st2 hinv1.1 h
              exact ⟨hinv2.1, hinv2.2.1.trans hinv1.2.1, hinv2.2.2.trans hinv1.2.2⟩

/-- render_dynamic keeps the invariant whenever the recursive dispatcher
does. -/
theorem render_dynamic_some_invariant (fromStr : String → Option Value)
    (hr : RenderContext → Value → RenderContext × Except Err Unit)
    (hhr : ∀ st data st2, st.current_component.isSome = true →
      hr st data = (st2, .ok ()) → shell_inv st st2)
    (st : RenderContext) (data : Value) (st2 : RenderContext)
    (hs : st.current_component.isSome = true)
    (h : RenderContext.render_dynamic fromStr hr st data = (st2, .ok ())) :
    shell_inv st st2 := by
  unfold RenderContext.render_dynamic at h
  split at h
  · simp at h
  · cases hdp : RenderContext.dynamic_properties fromStr data with
    | none => rw [hdp] at h; simp at h
    | some props =>
        rw [hdp] at h
        exact dyn_loop_some_invariant hr hhr props st st2 hs h

/-- A successful handle_row on a context with a component open keeps a
component open and makes no shell start or end call, at every fuel. -/
theorem handle_row_some_invariant (fromStr : String → Option Value) :
    ∀ (fuel : Nat) (st : RenderContext) (data : Value) (st2 : RenderContext),
      st.current_component.isSome = true →
      RenderContext.handle_row fromStr fuel st data = (st2, .ok ()) →
      shell_inv st st2 := by
  intro fuel
  induction fuel with
  | zero =>
      intro st data st2 hs h
      simp [RenderContext.handle_row] at h
  | succ f ih =>
      intro st data st2 hs h
      unfold RenderContext.handle_row at h
      dsimp only at h
      split at h
      case h_1 heqa heqb =>
        rw [Option.map_eq_none'.mp heqa] at hs
        simp at hs
      case h_2 heqa heqb =>
        rw [Option.map_eq_none'.mp heqa] at hs
        simp at hs
      case h_3 nc heqa heqb =>
        rw [Option.map_eq_none'.mp nc] at hs
        simp at hs
      case h_4 val heqa heqb =>
        exact render_dynamic_some_invariant fromStr _ ih st data st2 hs h
      case h_5 va nc heqa heqb =>
        have hf : (st.open_component_with_data va data).1 = st2 := by rw [h]
        refine ⟨open_component_with_data_ok_current h, ?_, ?_⟩
        · rw [← hf]; exact (open_component_with_data_shell st va data).1
        · rw [← hf]; exact (open_component_with_data_shell st va data).2
      case h_6 val x hna hnb =>
        have hf : (st.render_current_template_with_data data).1 = st2 := by rw [h]
        refine ⟨render_current_ok_current h, ?_, ?_⟩
        · rw [← hf]; exact (render_current_shell st data).1
        · rw [← hf]; exact (render_current_shell st data).2

/-- A successful handle_row on a context with no component open starts the
shell exactly once, opens a component, and emits no shell end. -/
theorem handle_row_first_invariant (fromStr : String → Option Value) (fuel : Nat)
    (st : RenderContext) (data : Value) (st2 : RenderContext)
    (hnone : st.current_component = none)
    (h : RenderContext.handle_row fromStr fuel st data = (st2, .ok ())) :
    st2.current_component.isSome = true ∧
    shell_starts st2.events = shell_starts st.events + 1 ∧
    shell_ends st2.events = shell_ends st.events := by
  cases fuel with
  | zero => simp [RenderContext.handle_row] at h
  | succ f =>
      unfold RenderContext.handle_row at h
      dsimp only at h
      split at h
      case h_4 a b c => rw [hnone] at b; simp at b
      case h_5 va nc heqa heqb => rw [hnone] at heqa; simp at heqa
      case h_6 a b c d => rw [hnone] at b; simp at b
      case h_1 heqa heqb =>
        obtain ⟨stS, hxS, h2⟩ := andThen_ok_inv h
        try dsimp only at h2
        have hfS : (st.shell_render_start data).1 = stS := by rw [hxS]
        have hfO : (stS.open_component_with_data DEFAULT_COMPONENT data).1 = st2 := by
          rw [h2]
        refine ⟨open_component_with_data_ok_current h2, ?_, ?_⟩
        · rw [← hfO, (open_component_with_data_shell stS _ _).1, ← hfS,
            (shell_render_start_shell st _).1]
        · rw [← hfO, (open_component_with_data_shell stS _ _).2, ← hfS,
            (shell_render_start_shell st _).2]
      case h_2 heqa heqb =>
        obtain ⟨stS, hxS, h2⟩ := andThen_ok_inv h
        try dsimp only at h2
        have hfS : (st.shell_render_start data).1 = stS := by rw [hxS]
        have hfO : (stS.open_component_with_data DEFAULT_COMPONENT data).1 = st2 := by
          rw [h2]
        refine ⟨open_component_with_data_ok_current h2, ?_, ?_⟩
        · rw [← hfO, (open_component_with_data_shell stS _ _).1, ← hfS,
            (shell_render_start_shell st _).1]
        · rw [← hfO, (open_component_with_data_shell stS _ _).2, ← hfS,
            (shell_render_start_shell st _).2]
      case h_3 nc heqa heqb =>
        obtain ⟨stS, hxS, h2⟩ := andThen_ok_inv h
        try dsimp only at h2
        have hfS : (st.shell_render_start Value.null).1 = stS := by rw [hxS]
        have hfO : (stS.open_component_with_data
            (((data.as_object.bind fun o => o.lookup "component").bind
              Value.as_str).getD DEFAULT_COMPONENT) data).1 = st2 := by rw [h2]
        refine ⟨open_component_with_data_ok_current h2, ?_, ?_⟩
        · rw [← hfO, (open_component_with_data_shell stS _ _).1, ← hfS,
            (shell_render_start_shell st _).1]
        · rw [← hfO, (open_component_with_data_shell stS _ _).2, ← hfS,
            (shell_render_start_shell st _).2]

/-- A successful step keeps the invariant while a component is open. -/
theorem step_some_invariant (fromStr : String → Option Value) (fuel : Nat)
    (st : RenderContext) (ev : QueryEvent) (st2 : RenderContext)
    (hs : st.current_component.isSome = true)
    (h : RenderContext.step fromStr fuel st ev = (st2, .ok ())) : shell_inv st st2 := by
  cases ev with
  | row v => exact handle_row_some_invariant fromStr fuel st v st2 hs h
  | error e => exact handle_error_some_invariant st e st2 hs h
  | finishQ =>
      have hf : ({ st with current_statement := st.current_statement + 1 }
          : RenderContext) = st2 := congrArg Prod.fst h
      rw [← hf]
      exact ⟨hs, rfl, rfl⟩

/-- An all-successful run keeps the invariant while a component is open. -/
theorem run_events_invariant (fromStr : String → Option Value) (fuel : Nat) :
    ∀ (evs : List QueryEvent) (st stf : RenderContext),
      st.current_component.isSome = true →
      RenderContext.run_events fromStr fuel st evs = (stf, true) →
      shell_inv st stf := by
  intro evs
  induction evs with
  | nil =>
      intro st stf hs h
      unfold RenderContext.run_events at h
      simp only [Prod.mk.injEq] at h
      rw [← h.1]
      exact ⟨hs, rfl, rfl⟩
  | cons ev evs ih =>
      intro st stf hs h
      unfold RenderContext.run_events at h
      cases hstep : RenderContext.step fromStr fuel st ev with
      | mk st1 res =>
          rw [hstep] at h
          cases res with
          | error e =>
              dsimp only at h
              have hsnd := congrArg Prod.snd h
              simp at hsnd
          | ok u =>
              dsimp only at h
              have h1 := step_some_invariant fromStr fuel st ev st1 hs hstep
              have h2 := ih st1 stf h1.1 h
              exact ⟨h2.1, h2.2.1.trans h1.2.1, h2.2.2.trans h1.2.2⟩

/-- When the final renders succeed, close appends only the component end
event (if any) and one final shell end event. -/
theorem close_events_of_ok (st : RenderContext) (h : close_renders_ok st = true) :
    ∃ (pre : List Event) (out : String),
      (RenderContext.close st).events = (st.events ++ pre) ++ [Event.shell .close out] ∧
      pre.countP isShellStart = 0 ∧ pre.countP isShellEnd = 0 := by
  unfold close_renders_ok at h
  rw [Bool.and_eq_true] at h
  obtain ⟨h1, h2⟩ := h
  unfold RenderContext.close
  cases hc : st.current_component with
  | none =>
      dsimp only
      cases hse : st.shell_renderer.render_end with
      | mk r p =>
          obtain ⟨out, res⟩ := p
          rw [hse] at h2
          dsimp only at h2
          cases res with
          | error e => simp [exceptOk] at h2
          | ok u =>
              dsimp only [Except.mapError, RenderContext.handle_result_and_log]
              exact ⟨[], out, by simp, rfl, rfl⟩
  | some c =>
      rw [hc] at h1
      dsimp only at h1
      cases hce : c.render_end with
      | mk cr p =>
          obtain ⟨out1, res1⟩ := p
          rw [hce] at h1
          dsimp only at h1
          cases res1 with
          | error e => simp [exceptOk] at h1
          | ok u =>
              cases hse : st.shell_renderer.render_end with
              | mk r p2 =>
                  obtain ⟨out, res⟩ := p2
                  rw [hse] at h2
                  dsimp only at h2
                  cases res with
                  | error e => simp [exceptOk] at h2
                  | ok u2 =>
                      refine ⟨[Event.comp c.name .close out1], out, ?_, ?_, ?_⟩
                      · simp only [hce, hse, Except.mapError,
                          RenderContext.handle_result_and_log]
                      · simp [List.countP_cons, isShellStart]
                      · simp [List.countP_cons, isShellEnd]

/-- C7 amended: over a lifetime consisting of successful handle_row,
handle_error and finish_query calls whose first call is a handle_row,
followed by one close whose final renders succeed, exactly one
shell.render_start and exactly one shell.render_end are emitted, and the
shell.render_end is the final lifecycle event, so no bytes are produced
after it. (The original claim fails for other call sequences: an error
handled before any row re-starts the shell, see the counterexample.) -/
theorem C7_amended_shell_lifecycle (fromStr : String → Option Value) (fuel : Nat)
    (registry : List (String × SplitTemplate)) (st0 : RenderContext) (v : Value)
    (evs : List QueryEvent) (stf : RenderContext)
    (hNew : RenderContext.new registry = some st0)
    (hRun : RenderContext.run_events fromStr fuel st0 (QueryEvent.row v :: evs)
        = (stf, true))
    (hClose : close_renders_ok stf = true) :
    shell_starts (RenderContext.close stf).events = 1 ∧
    shell_ends (RenderContext.close stf).events = 1 ∧
    ∃ out, (RenderContext.close stf).events.getLast? = some (Event.shell .close out) := by
  have hn : st0.current_component = none ∧ st0.events = [] := by
    unfold RenderContext.new at hNew
    cases hcr : RenderContext.create_renderer registry "shell" with
    | error e => rw [hcr] at hNew; simp at hNew
    | ok shell =>
        rw [hcr] at hNew
        dsimp only at hNew
        rw [Option.some.injEq] at hNew
        rw [← hNew]
        exact ⟨rfl, rfl⟩
  unfold RenderContext.run_events at hRun
  cases hstep : RenderContext.step fromStr fuel st0 (QueryEvent.row v) with
  | mk st1 res =>
      rw [hstep] at hRun
      cases res with
      | error e =>
          exfalso
          dsimp only at hRun
          have hsnd := congrArg Prod.snd hRun
          simp at hsnd
      | ok u =>
          dsimp only at hRun
          have hfirst := handle_row_first_invariant fromStr fuel st0 v st1 hn.1 hstep
          obtain ⟨h1some, h1starts, h1ends⟩ := hfirst
          obtain ⟨hfsome, hfstarts, hfends⟩ :=
            run_events_invariant fromStr fuel evs st1 stf h1some hRun
          obtain ⟨pre, out, hevents, hpre1, hpre2⟩ := close_events_of_ok stf hClose
          rw [hn.2] at h1starts h1ends
          refine ⟨?_, ?_, out, ?_⟩
          · rw [hevents]
            show (((stf.events ++ pre) ++ [Event.shell .close out]).countP isShellStart) = 1
            rw [List.countP_append, List.countP_append]
            have hstf : stf.events.countP isShellStart = 1 := by
              have := hfstarts.trans h1starts
              simpa [shell_starts] using this
            rw [hstf, hpre1]
            rfl
          · rw [hevents]
            show (((stf.events ++ pre) ++ [Event.shell .close out]).countP isShellEnd) = 1
            rw [List.countP_append, List.countP_append]
            have hstf : stf.events.countP isShellEnd = 0 := by
              have := hfends.trans h1ends
              simpa [shell_ends] using this
            rw [hstf, hpre2]
            rfl
          · rw [hevents]
            exact List.getLast?_concat _

/-- Witness for C7 amended: the concrete two-row run on the concrete
registry. -/
theorem C7_amended_shell_lifecycle_witness :
    shell_starts (RenderContext.close (RenderContext.run_events fs0 10 st0X
        [.row cA, .row itemRow]).1).events = 1 ∧
    shell_ends (RenderContext.close (RenderContext.run_events fs0 10 st0X
        [.row cA, .row itemRow]).1).events = 1 ∧
    ∃ out, (RenderContext.close (RenderContext.run_events fs0 10 st0X
        [.row cA, .row itemRow]).1).events.getLast?
      = some (Event.shell .close out) :=
  C7_amended_shell_lifecycle fs0 10 registryX st0X cA [.row itemRow]
    (RenderContext.run_events fs0 10 st0X [.row cA, .row itemRow]).1
    rfl rfl rfl

end SQLpage
